import Mathlib

/-!
Shallow embedding of the covid_pipeline engine
(`covid_pipeline/assets/{datos,metricas,checks}.py`) and proofs about it.

Conventions of the embedding:
* pandas `DataFrame` columns of numeric dtype are modelled as `Option ℚ`
  (`none` = NaN/NA, the engine's missing marker; exact rationals stand for
  the float values — no claim below depends on float rounding);
* dates are modelled as `Int` (pandas `to_datetime` is an order-preserving
  parse, so sorting/shift behave identically to the source);
* pandas `rolling`/`shift`/`groupby().transform` are reproduced
  positionally, exactly as pandas computes them: `groupby` collects the
  rows of one `location` in their encounter order, rolling results are
  aligned back at the original row positions.
-/

/-- One row of the `datos_procesados` table as consumed by
`metricas.py`: columns `location`, `date`, `new_cases`,
`people_vaccinated`, `population`.  Numeric cells are `Option ℚ`
(`none` = NaN/NA). -/
structure Row where
  location : String
  date : Int
  new_cases : Option ℚ
  people_vaccinated : Option ℚ
  population : Option ℚ
deriving DecidableEq

/-- One row of the table returned by `metrica_incidencia_7d`
(columns `date`, `location`, `incidencia_7d`). -/
structure IncRow where
  date : Int
  location : String
  incidencia_7d : ℚ
deriving DecidableEq

/-- One row of the table returned by `metrica_factor_crec_7d`
(columns `semana_fin`, `location`, `casos_semana`, `factor_crec_7d`). -/
structure GrowthRow where
  semana_fin : Int
  location : String
  casos_semana : ℚ
  factor_crec_7d : ℚ
deriving DecidableEq

/-- `metricas.py` line 29:
`(df["new_cases"] / df["population"].replace({0: pd.NA})) * 100000`.
A population of 0 is replaced by NA before the division, so no division
by zero happens; NA/NaN operands propagate to NA. -/
def incidenciaDiaria (r : Row) : Option ℚ :=
  match r.new_cases, r.population with
  | some nc, some p => if p = 0 then none else some (nc / p * 100000)
  | _, _ => none

/-- The trailing window of at most 7 elements ending at position `i`
(positions `i-6 .. i`, fewer when `i < 6`) — the window pandas
`rolling(7)` looks at for position `i`. -/
def window7 (xs : List α) (i : Nat) : List α :=
  (xs.take (i + 1)).drop (i + 1 - 7)

/-- pandas `s.rolling(7, min_periods=1).sum()`: at each position the sum
of the non-NA values of the trailing 7-window, NA only when the whole
window is NA. -/
def rolling7sum (xs : List (Option ℚ)) : List (Option ℚ) :=
  (List.range xs.length).map (fun i =>
    if (window7 xs i).any (fun x => x.isSome) then
      some (((window7 xs i).filterMap id).sum)
    else none)

/-- pandas `s.rolling(7, min_periods=7).mean()`: a value appears only at
positions `i ≥ 6` whose trailing 7-window holds 7 non-NA values (a NA in
the window makes the non-NA count 6 < min_periods, hence NA), and it is
the mean of those 7 values. -/
def rolling7mean (xs : List (Option ℚ)) : List (Option ℚ) :=
  (List.range xs.length).map (fun i =>
    if 6 ≤ i then
      if (window7 xs i).all (fun x => x.isSome) then
        some (((window7 xs i).filterMap id).sum / 7)
      else none
    else none)

/-- The column `f` of the rows of group `loc`, in encounter order —
the series pandas `groupby("location")[col]` hands to the lambda. -/
def colSeries (df : List Row) (loc : String) (f : Row → Option ℚ) : List (Option ℚ) :=
  (df.filter (fun r => r.location = loc)).map f

/-- Position of row `i` inside its `location` group: the number of
earlier rows of the same group.  `transform` aligns the group result
back to row `i` at exactly this offset. -/
def rank (df : List Row) (loc : String) (i : Nat) : Nat :=
  ((df.take i).filter (fun r => r.location = loc)).length

/-- `metricas.py` lines 76–77: `casos_semana / casos_semana_prev`
followed by `.replace([inf, -inf], pd.NA)`.  A NA operand gives NA
(NaN); a zero denominator gives ±inf (or NaN for 0/0), all of which end
as NA and are removed by the final `dropna`; so the quotient survives
exactly when both operands are non-NA and the denominator is nonzero. -/
def divNA (a b : Option ℚ) : Option ℚ :=
  match a, b with
  | some x, some y => if y = 0 then none else some (x / y)
  | _, _ => none

/-- Sort key of `df.sort_values(["location", "date"])`: lexicographic on
(location, date). -/
def rowLE (a b : Row) : Prop :=
  a.location < b.location ∨ (a.location = b.location ∧ a.date ≤ b.date)

instance : DecidableRel rowLE := fun _ _ =>
  inferInstanceAs (Decidable (_ ∨ _))

instance : IsTotal Row rowLE := by
  constructor
  intro a b
  rcases lt_trichotomy a.location b.location with h | h | h
  · exact Or.inl (Or.inl h)
  · rcases le_total a.date b.date with hd | hd
    · exact Or.inl (Or.inr ⟨h, hd⟩)
    · exact Or.inr (Or.inr ⟨h.symm, hd⟩)
  · exact Or.inr (Or.inl h)

instance : IsTrans Row rowLE := by
  constructor
  intro a b c hab hbc
  rcases hab with h1 | ⟨e1, d1⟩
  · rcases hbc with h2 | ⟨e2, _⟩
    · exact Or.inl (h1.trans h2)
    · exact Or.inl (e2 ▸ h1)
  · rcases hbc with h2 | ⟨e2, d2⟩
    · exact Or.inl (e1 ▸ h2)
    · exact Or.inr ⟨e1.trans e2, d1.trans d2⟩

/-- `df.sort_values(["location", "date"])` (line 26 of `metricas.py`). -/
def sortRows (df : List Row) : List Row :=
  List.insertionSort rowLE df

/-- The output row (if any) that `metrica_incidencia_7d` produces from
position `i` of the sorted frame `s`: the aligned `rolling7mean` value
of its location group, kept only when non-NA (`df["incidencia_7d"].notna()`). -/
def incAt (s : List Row) (i : Nat) : Option IncRow :=
  match s.get? i with
  | some r =>
      (((rolling7mean (colSeries s r.location incidenciaDiaria)).get?
          (rank s r.location i)).join).map
        (fun v => { date := r.date, location := r.location, incidencia_7d := v })
  | none => none

/-- `metricas.py`, asset `metrica_incidencia_7d`: sort by
(location, date), compute `incidencia_diaria`, per-location rolling mean
with `min_periods=7`, and keep only the rows where the mean exists,
projected to (date, location, incidencia_7d). -/
def metrica_incidencia_7d (datos : List Row) : List IncRow :=
  (List.range (sortRows datos).length).filterMap (incAt (sortRows datos))

/-- The shifted `casos_semana_prev` series value aligned to group
position `k`: `groupby("location")["casos_semana"].shift(7)`. -/
def prevAt (xs : List (Option ℚ)) (k : Nat) : Option ℚ :=
  if k < 7 then none else (xs.get? (k - 7)).join

/-- The output row (if any) that `metrica_factor_crec_7d` produces from
position `i` of the unsorted frame `datos`.  The final
`dropna` keeps a row only when `casos_semana` and `factor_crec_7d` are
both non-NA (which forces the shifted denominator to exist and be
nonzero). -/
def growthAt (datos : List Row) (i : Nat) : Option GrowthRow :=
  match datos.get? i with
  | some r =>
      match ((rolling7sum (colSeries datos r.location Row.new_cases)).get?
               (rank datos r.location i)).join,
            divNA ((rolling7sum (colSeries datos r.location Row.new_cases)).get?
                     (rank datos r.location i)).join
                  (prevAt (rolling7sum (colSeries datos r.location Row.new_cases))
                     (rank datos r.location i)) with
      | some c, some f =>
          some { semana_fin := r.date, location := r.location,
                 casos_semana := c, factor_crec_7d := f }
      | _, _ => none
  | none => none

/-- `metricas.py`, asset `metrica_factor_crec_7d`.  NOTE: the source
converts `date` with `to_datetime` but never sorts — the rolling sum,
the 7-position shift and the quotient are computed in the input's row
order. -/
def metrica_factor_crec_7d (datos : List Row) : List GrowthRow :=
  (List.range datos.length).filterMap (growthAt datos)

/-!  Embedding of `datos.py` and `checks.py`.  Raw record sets have
arbitrary columns, so they are modelled as a header list plus rows of
cells (`Cell.null` = NaN/NA, the engine's missing marker). -/

/-- A cell of a raw tabular record set. -/
inductive Cell where
  | null : Cell
  | num : ℚ → Cell
  | str : String → Cell
deriving DecidableEq

/-- A raw record set: column names plus rows of cells. -/
structure DF where
  cols : List String
  rows : List (List Cell)
deriving DecidableEq

/-- `datos.py` lines 30–32: the configured entities (environment
defaults "Ecuador" / "Peru"). -/
def PAIS_BASE : String := "Ecuador"

/-- Comparison country default. -/
def PAIS_COMPARATIVO : String := "Peru"

/-- `PAISES = [PAIS_BASE, PAIS_COMPARATIVO]`. -/
def PAISES : List String := [PAIS_BASE, PAIS_COMPARATIVO]

/-- `datos.py` lines 36–42: the alias dictionary `ALT` (insertion
order preserved, as Python dicts do). -/
def ALT : List (String × List String) :=
  [("location", ["location", "entity", "country", "country_name", "location_name", "place"]),
   ("date", ["date", "day"]),
   ("new_cases", ["new_cases", "new_cases_daily"]),
   ("people_vaccinated", ["people_vaccinated", "people_with_at_least_one_dose"]),
   ("population", ["population", "pop"])]

/-- Whitespace as stripped by Python `str.strip()`. -/
def isSpaceChar (c : Char) : Bool :=
  c = ' ' || c = '\t' || c = '\n' || c = '\r'

/-- Header cleaning of `_canon` lines 53–58: `c.strip()`, then
`c.replace("﻿", "")` (removes every BOM character), then
`c.lower()` — written out on the character list so that it reduces. -/
def headerClean (c : String) : String :=
  String.mk
    (((((c.data.dropWhile isSpaceChar).reverse.dropWhile isSpaceChar).reverse).filter
        (fun ch => decide (¬ ch = '﻿'))).map Char.toLower)

/-- The cleaned header list `df.columns` after `_canon` line 58. -/
def canonHeaders (cols : List String) : List String :=
  cols.map headerClean

/-- One iteration of the `_canon` loop (lines 62–65): for the canonical
name `p.1` with alias list `p.2`, the first alias present among the
columns, recorded when it differs from the canonical name itself. -/
def renameEntry (cols : List String) (p : String × List String) :
    Option (String × String) :=
  match p.2.find? (fun c => decide (c ∈ cols)) with
  | some found => if found ≠ p.1 then some (found, p.1) else none
  | none => none

/-- `_canon` lines 61–65: the accumulated `rename_map`. -/
def renameMap (cols : List String) : List (String × String) :=
  ALT.filterMap (renameEntry cols)

/-- `df.rename(columns=m)`: every column whose name is a key of `m` is
replaced by the mapped name; others are unchanged. -/
def applyRename (m : List (String × String)) (cols : List String) : List String :=
  cols.map (fun c =>
    match m.find? (fun q => decide (q.1 = c)) with
    | some q => q.2
    | none => c)

/-- `_canon` (datos.py lines 45–70), returning the pair
(caller's frame after the call, returned frame).  Line 53
(`df.columns = ...`) assigns the cleaned headers to the *argument*
frame in place, so the caller observes them; `df.rename` (line 68)
builds a new frame, so the alias renaming is visible only through the
returned frame. -/
def _canon (df : DF) : DF × DF :=
  let cleaned : DF := { df with cols := canonHeaders df.cols }
  (cleaned, { cleaned with cols := applyRename (renameMap cleaned.cols) cleaned.cols })

/-- `_require` (datos.py lines 73–80) computes the required columns
missing from the frame; the Python function raises
`KeyError("Faltan columnas requeridas tras normalizar: ...")` naming
exactly this list when it is nonempty. -/
def _require (df : DF) (cols : List String) : List String :=
  cols.filter (fun c => decide (¬ c ∈ df.cols))

/-- The cell of `row` in column `c` of frame `df`. -/
def cellAt (df : DF) (row : List Cell) (c : String) : Cell :=
  row.getD (df.cols.indexOf c) Cell.null

/-- Is the cell the missing marker? -/
def isNullCell : Cell → Bool
  | Cell.null => true
  | _ => false

/-- `df.dropna(subset=["new_cases", "people_vaccinated"])` row
predicate: both cells non-null.  `population` is *not* consulted. -/
def dropnaRow (df : DF) (row : List Cell) : Bool :=
  !isNullCell (cellAt df row "new_cases") && !isNullCell (cellAt df row "people_vaccinated")

/-- The `(location, date)` key of a row, as compared by
`drop_duplicates(subset=["location", "date"])` and
`duplicated(subset=["location", "date"])`. -/
def rowKey (df : DF) (row : List Cell) : Cell × Cell :=
  (cellAt df row "location", cellAt df row "date")

/-- `drop_duplicates(subset=["location", "date"])`: keep a row exactly
when no earlier row has the same key (pandas keeps the first
occurrence). -/
def drop_duplicates (df : DF) (rows : List (List Cell)) : List (List Cell) :=
  (List.range rows.length).filterMap (fun i =>
    match rows.get? i with
    | some r =>
        if (rows.take i).all (fun s => decide (¬ rowKey df s = rowKey df r)) then
          some r
        else none
    | none => none)

/-- `df["location"].isin(PAISES)` row predicate. -/
def locInPaises (df : DF) (row : List Cell) : Bool :=
  match cellAt df row "location" with
  | Cell.str s => decide (s ∈ PAISES)
  | _ => false

/-- The required canonical columns of `datos_procesados`
(datos.py line 129), also the final column selection (line 137). -/
def requiredCols : List String :=
  ["location", "date", "new_cases", "people_vaccinated", "population"]

/-- `df[cols]` applied to one row: project the row to `requiredCols`. -/
def projRow (df : DF) (row : List Cell) : List Cell :=
  requiredCols.map (cellAt df row)

/-- `datos_procesados` (datos.py lines 116–138): require the canonical
columns (raising the structural `KeyError` — modelled as `Except.error`
carrying the missing-column list its message names — before any row
processing), then dropna on the two metric columns, deduplicate on
`(location, date)`, filter to `PAISES`, and project. -/
def datos_procesados (df : DF) : Except (List String) DF :=
  match _require df requiredCols with
  | [] =>
      Except.ok { cols := requiredCols,
                  rows := ((drop_duplicates df (df.rows.filter (dropnaRow df))).filter
                             (locInPaises df)).map (projRow df) }
  | missing => Except.error missing

deriving instance DecidableEq for Except

/-- A Dagster `AssetCheckResult` as built by `checks.py`: a pass flag
and a description. -/
structure AssetCheckResult where
  passed : Bool
  description : String
deriving DecidableEq

/-- `_columns_missing` (checks.py line 13). -/
def _columns_missing (df : DF) (cols : List String) : List String :=
  cols.filter (fun c => decide (¬ c ∈ df.cols))

/-- The `(location, date)` key of row `i` of the frame. -/
def keyAt (df : DF) (i : Nat) : Cell × Cell :=
  match df.rows.get? i with
  | some row => rowKey df row
  | none => (Cell.null, Cell.null)

/-- `leer_datos.duplicated(subset=["location", "date"])` at row `j`:
true when an earlier row carries the same key. -/
def dupAt (df : DF) (j : Nat) : Bool :=
  (List.range j).any (fun i => decide (keyAt df i = keyAt df j))

/-- `int(leer_datos.duplicated(subset=need).sum())`. -/
def dupCount (df : DF) : Nat :=
  ((List.range df.rows.length).filter (fun j => dupAt df j)).length

/-- `unique_loc_date` (checks.py lines 67–80): fail when `location` or
`date` is missing; otherwise pass exactly when the duplicate count is
zero. -/
def unique_loc_date (df : DF) : AssetCheckResult :=
  let miss := _columns_missing df ["location", "date"]
  if miss ≠ [] then
    { passed := false, description := "Faltan columnas: " ++ toString miss }
  else
    { passed := decide (dupCount df = 0),
      description := "duplicados (location,date): " ++ toString (dupCount df) }

/-- Numeric view of a cell, as pandas' numeric coercion sees it. -/
def toRat? : Cell → Option ℚ
  | Cell.num q => some q
  | _ => none

/-- The typed view of a processed row (numeric cells to `Option ℚ`), as
`metrica_incidencia_7d` consumes it; the date ordinal does not enter
`incidencia_diaria` and is set to 0. -/
def toRow (df : DF) (row : List Cell) : Row :=
  { location := (match cellAt df row "location" with | Cell.str s => s | _ => ""),
    date := 0,
    new_cases := toRat? (cellAt df row "new_cases"),
    people_vaccinated := toRat? (cellAt df row "people_vaccinated"),
    population := toRat? (cellAt df row "population") }

/-!  Concrete record sets used in counterexamples and witnesses. -/

/-- A test row: population 100000 makes the daily incidence equal the
case count. -/
def mkRow (loc : String) (d : Int) (nc : ℚ) : Row :=
  { location := loc, date := d, new_cases := some nc,
    people_vaccinated := some 0, population := some 100000 }

/-- Entity "A", dates 0–7 ascending, one case on day 0 then none. -/
def dfAsc : List Row :=
  [mkRow "A" 0 1, mkRow "A" 1 0, mkRow "A" 2 0, mkRow "A" 3 0,
   mkRow "A" 4 0, mkRow "A" 5 0, mkRow "A" 6 0, mkRow "A" 7 0]

/-- The same eight records arriving in reverse chronological order. -/
def dfDesc : List Row := dfAsc.reverse

/-- Entity "A", dates 0–7, one case per day. -/
def dfOnes : List Row :=
  [mkRow "A" 0 1, mkRow "A" 1 1, mkRow "A" 2 1, mkRow "A" 3 1,
   mkRow "A" 4 1, mkRow "A" 5 1, mkRow "A" 6 1, mkRow "A" 7 1]

/-- Entity "A", dates 0–6, seven cases per day. -/
def dfSeven : List Row :=
  [mkRow "A" 0 7, mkRow "A" 1 7, mkRow "A" 2 7, mkRow "A" 3 7,
   mkRow "A" 4 7, mkRow "A" 5 7, mkRow "A" 6 7]

/-- A series with a missing value inside the 7-window ending at index 6. -/
def xsGap : List (Option ℚ) :=
  [some 1, some 1, some 1, none, some 1, some 1, some 1]

/-- Headers that differ only in letter case. -/
def dfCase : DF := { cols := ["Date", "DATE"], rows := [[Cell.num 1, Cell.num 2]] }

/-- A frame whose headers need cleaning. -/
def dfDirty : DF := { cols := [" Date ", "﻿Entity"], rows := [[Cell.num 1, Cell.num 2]] }

/-- Canonical frame with one well-formed row for a non-configured country. -/
def dfFrance : DF :=
  { cols := ["date", "location", "new_cases", "people_vaccinated", "population"],
    rows := [[Cell.str "d1", Cell.str "France", Cell.num 5, Cell.num 3, Cell.num 17]] }

/-- A Peru row whose population is null. -/
def rowPeruNull : List Cell :=
  [Cell.str "d1", Cell.str "Peru", Cell.num 5, Cell.num 3, Cell.null]

/-- Canonical frame containing only `rowPeruNull`. -/
def dfPeruNull : DF :=
  { cols := ["date", "location", "new_cases", "people_vaccinated", "population"],
    rows := [rowPeruNull] }

/-- A frame missing the `population` column. -/
def dfNoPop : DF :=
  { cols := ["date", "location", "new_cases", "people_vaccinated"],
    rows := [[Cell.str "d1", Cell.str "Peru", Cell.num 5, Cell.num 3]] }

/-- Two rows with the same (location, date) key. -/
def dfDup : DF :=
  { cols := ["location", "date"],
    rows := [[Cell.str "Peru", Cell.str "d1"], [Cell.str "Peru", Cell.str "d1"]] }

/-- A row whose population is zero. -/
def rowPopZero : Row :=
  { location := "A", date := 0, new_cases := some 3,
    people_vaccinated := some 0, population := some 0 }

/-!  Helper lemmas. -/

theorem mem_take_idx {α : Type _} {l : List α} {i : Nat} {x : α}
    (h : x ∈ l.take i) : ∃ j, j < i ∧ l.get? j = some x := by
  induction l generalizing i with
  | nil => simp at h
  | cons a t ih =>
    cases i with
    | zero => simp at h
    | succ n =>
      rcases (by simpa using h : x = a ∨ x ∈ t.take n) with rfl | hx
      · exact ⟨0, Nat.succ_pos _, rfl⟩
      · obtain ⟨j, hj, hg⟩ := ih hx
        exact ⟨j + 1, Nat.succ_lt_succ hj, hg⟩

theorem filter_pos {α : Type _} (p : α → Bool) :
    ∀ (l : List α) (i : Nat) (x : α), l.get? i = some x → p x = true →
      (l.filter p).get? (((l.take i).filter p).length) = some x ∧
      (l.filter p).take (((l.take i).filter p).length) = (l.take i).filter p := by
  intro l
  induction l with
  | nil => intro i x h _; simp at h
  | cons a t ih =>
    intro i x h hp
    cases i with
    | zero =>
      rw [List.get?_cons_zero] at h
      injection h with h; subst h
      simp [List.filter_cons_of_pos hp]
    | succ n =>
      rw [List.get?_cons_succ] at h
      by_cases hpa : p a = true
      · have hI := ih n x h hp
        simp only [List.take_succ_cons, List.filter_cons_of_pos hpa,
          List.length_cons, List.get?_cons_succ, List.take_succ_cons]
        exact ⟨hI.1, by rw [hI.2]⟩
      · have hpa' : p a = false := by simpa using hpa
        have hI := ih n x h hp
        simp only [List.take_succ_cons, List.filter_cons_of_neg hpa,
          List.length_cons]
        exact hI

theorem filter_idx_exists {α : Type _} (p : α → Bool) :
    ∀ (l : List α) (k : Nat), k < (l.filter p).length →
      ∃ i x, l.get? i = some x ∧ p x = true ∧
        ((l.take i).filter p).length = k ∧ (l.filter p).get? k = some x := by
  intro l
  induction l with
  | nil => intro k h; simp at h
  | cons a t ih =>
    intro k hk
    by_cases hpa : p a = true
    · cases k with
      | zero =>
        exact ⟨0, a, rfl, hpa, by simp, by simp [List.filter_cons_of_pos hpa]⟩
      | succ m =>
        have hm : m < (t.filter p).length := by
          have := hk
          rw [List.filter_cons_of_pos hpa, List.length_cons] at this
          omega
        obtain ⟨i, x, h1, h2, h3, h4⟩ := ih m hm
        refine ⟨i + 1, x, h1, h2, ?_, ?_⟩
        · rw [List.take_succ_cons, List.filter_cons_of_pos hpa, List.length_cons, h3]
        · rw [List.filter_cons_of_pos hpa, List.get?_cons_succ]; exact h4
    · have hpa' : p a = false := by simpa using hpa
      have hk' : k < (t.filter p).length := by
        rwa [List.filter_cons_of_neg hpa] at hk
      obtain ⟨i, x, h1, h2, h3, h4⟩ := ih k hk'
      refine ⟨i + 1, x, h1, h2, ?_, ?_⟩
      · rw [List.take_succ_cons, List.filter_cons_of_neg hpa, h3]
      · rw [List.filter_cons_of_neg hpa]; exact h4

theorem rolling7sum_length (xs : List (Option ℚ)) :
    (rolling7sum xs).length = xs.length := by
  simp [rolling7sum]

theorem rolling7mean_length (xs : List (Option ℚ)) :
    (rolling7mean xs).length = xs.length := by
  simp [rolling7mean]

theorem rolling7sum_get? (xs : List (Option ℚ)) {i : Nat} (h : i < xs.length) :
    (rolling7sum xs).get? i =
      some (if (window7 xs i).any (fun x => x.isSome) then
              some (((window7 xs i).filterMap id).sum)
            else none) := by
  simp [rolling7sum, List.get?_eq_getElem?, List.getElem?_map, List.getElem?_range h]

theorem rolling7mean_get? (xs : List (Option ℚ)) {i : Nat} (h : i < xs.length) :
    (rolling7mean xs).get? i =
      some (if 6 ≤ i then
              if (window7 xs i).all (fun x => x.isSome) then
                some (((window7 xs i).filterMap id).sum / 7)
              else none
            else none) := by
  simp [rolling7mean, List.get?_eq_getElem?, List.getElem?_map, List.getElem?_range h]

theorem rolling7mean_join_some {xs : List (Option ℚ)} {k : Nat} {v : ℚ}
    (h : ((rolling7mean xs).get? k).join = some v) :
    k < xs.length ∧ 6 ≤ k ∧ (window7 xs k).all (fun x => x.isSome) = true ∧
      v = ((window7 xs k).filterMap id).sum / 7 := by
  by_cases hk : k < xs.length
  · rw [rolling7mean_get? xs hk] at h
    by_cases h6 : 6 ≤ k
    · rw [if_pos h6] at h
      by_cases hall : (window7 xs k).all (fun x => x.isSome) = true
      · rw [if_pos hall] at h
        simp at h
        exact ⟨hk, h6, hall, h.symm⟩
      · rw [if_neg hall] at h; simp at h
    · rw [if_neg h6] at h; simp at h
  · have : (rolling7mean xs).get? k = none := by
      rw [List.get?_eq_none]
      rw [rolling7mean_length]
      omega
    rw [this] at h
    simp at h

theorem divNA_eq_some {a b : Option ℚ} {f : ℚ} (h : divNA a b = some f) :
    ∃ x y, a = some x ∧ b = some y ∧ y ≠ 0 ∧ f = x / y := by
  rcases a with _ | x <;> rcases b with _ | y <;> simp [divNA] at h
  exact ⟨x, y, rfl, rfl, h.1, h.2.symm⟩

theorem prevAt_eq_some {xs : List (Option ℚ)} {k : Nat} {p : ℚ}
    (h : prevAt xs k = some p) :
    7 ≤ k ∧ (xs.get? (k - 7)).join = some p := by
  unfold prevAt at h
  by_cases hk : k < 7
  · rw [if_pos hk] at h; cases h
  · rw [if_neg hk] at h
    exact ⟨Nat.le_of_not_lt hk, h⟩

theorem rank_lt_group {df : List Row} {i : Nat} {r : Row}
    (h : df.get? i = some r) :
    rank df r.location i <
      (df.filter (fun x => x.location = r.location)).length := by
  have := (filter_pos (fun x => decide (x.location = r.location)) df i r h
      (by simp)).1
  rw [List.get?_eq_some] at this
  exact this.1

theorem growthAt_eq_some {df : List Row} {i : Nat} {o : GrowthRow}
    (h : growthAt df i = some o) :
    ∃ r, df.get? i = some r ∧ r.date = o.semana_fin ∧ r.location = o.location ∧
      7 ≤ rank df r.location i ∧
      ∃ p, ((rolling7sum (colSeries df r.location Row.new_cases)).get?
              (rank df r.location i - 7)).join = some p ∧ p ≠ 0 ∧
        ((rolling7sum (colSeries df r.location Row.new_cases)).get?
            (rank df r.location i)).join = some o.casos_semana ∧
        o.factor_crec_7d = o.casos_semana / p := by
  unfold growthAt at h
  split at h
  case h_2 => cases h
  case h_1 r hg =>
    refine ⟨r, hg, ?_⟩
    split at h
    case h_2 => cases h
    case h_1 c f hc hdv =>
      injection h with h
      subst h
      obtain ⟨x, y, hx, hy, hy0, hf⟩ := divNA_eq_some hdv
      rw [hc] at hx
      have hxc := Option.some.inj hx
      subst hxc
      obtain ⟨h7, hjoin⟩ := prevAt_eq_some hy
      exact ⟨rfl, rfl, h7, y, hjoin, hy0, hc, hf⟩

theorem incAt_eq_some {s : List Row} {i : Nat} {o : IncRow}
    (h : incAt s i = some o) :
    ∃ r, s.get? i = some r ∧ r.date = o.date ∧ r.location = o.location ∧
      ((rolling7mean (colSeries s r.location incidenciaDiaria)).get?
          (rank s r.location i)).join = some o.incidencia_7d := by
  unfold incAt at h
  split at h
  case h_2 => cases h
  case h_1 r hg =>
    rcases hv : ((rolling7mean (colSeries s r.location incidenciaDiaria)).get?
        (rank s r.location i)).join with _ | v <;> rw [hv] at h
    · cases h
    · rw [Option.map_some'] at h
      injection h with h
      subst h
      exact ⟨r, hg, rfl, rfl, hv⟩

theorem sortRows_sorted (df : List Row) : List.Sorted rowLE (sortRows df) :=
  List.sorted_insertionSort rowLE df

theorem take_loc_date_le {s : List Row} (hs : List.Sorted rowLE s) {i : Nat}
    {r : Row} (hi : s.get? i = some r) :
    ∀ x ∈ s.take i, x.location = r.location → x.date ≤ r.date := by
  intro x hx hloc
  obtain ⟨j, hj, hgj⟩ := mem_take_idx hx
  rw [List.get?_eq_some] at hgj hi
  obtain ⟨hjl, hxj⟩ := hgj
  obtain ⟨hil, hri⟩ := hi
  have hrel := List.Sorted.rel_get_of_lt hs
      (a := ⟨j, hjl⟩) (b := ⟨i, hil⟩) hj
  rw [hxj, hri] at hrel
  rcases hrel with hlt | ⟨_, hle⟩
  · rw [hloc] at hlt
    exact absurd hlt (lt_irrefl _)
  · exact hle

theorem rolling7sum_head (xs : List (Option ℚ)) :
    (rolling7sum xs).get? 0 = xs.get? 0 := by
  cases xs with
  | nil => simp [rolling7sum]
  | cons x t =>
    rw [rolling7sum_get? (x :: t) (by simp)]
    cases x <;> simp [window7]

theorem incAt_mk {s : List Row} {i : Nat} {r : Row} {v : ℚ}
    (hg : s.get? i = some r)
    (hv : ((rolling7mean (colSeries s r.location incidenciaDiaria)).get?
        (rank s r.location i)).join = some v) :
    incAt s i =
      some { date := r.date, location := r.location, incidencia_7d := v } := by
  unfold incAt
  simp only [hg, hv, Option.map_some']

theorem rolling7mean_at6 {l : List (Option ℚ)} (h7 : 7 ≤ l.length)
    (hall : (l.take 7).all (fun x => x.isSome) = true) :
    ((rolling7mean l).get? 6).join =
      some (((l.take 7).filterMap id).sum / 7) := by
  have h6 : 6 < l.length := by omega
  rw [rolling7mean_get? l h6]
  have hw : window7 l 6 = l.take 7 := by simp [window7]
  rw [hw, if_pos (by norm_num), if_pos hall]
  rfl

/-!  Claim theorems. -/

/-- C1: the claim says `metrica_factor_crec_7d` sorts each entity's
records by date ascending before the rolling computation, so its output
is independent of input row order.  The code never sorts: the same
eight records for entity "A" produce one growth row when they arrive
date-ascending (`sortRows dfDesc`) and no row at all when they arrive
date-descending (`dfDesc`), although the two inputs are permutations of
each other. -/
theorem growth_order_dependent_c1 :
    metrica_factor_crec_7d dfDesc = [] ∧
    metrica_factor_crec_7d (sortRows dfDesc) =
      [{ semana_fin := 7, location := "A", casos_semana := 0,
         factor_crec_7d := 0 }] ∧
    dfDesc.Perm (sortRows dfDesc) := by
  refine ⟨?_, ?_, (List.perm_insertionSort rowLE dfDesc).symm⟩
  · simp [metrica_factor_crec_7d, growthAt, rolling7sum, window7, colSeries,
      rank, divNA, prevAt, dfDesc, dfAsc, mkRow, List.range_succ,
      List.filterMap_cons]
  · have hs : sortRows dfDesc = dfAsc := by
      simp [sortRows, dfDesc, dfAsc, mkRow, List.insertionSort,
        List.orderedInsert, rowLE]
    rw [hs]
    simp [metrica_factor_crec_7d, growthAt, rolling7sum, window7, colSeries,
      rank, divNA, prevAt, dfAsc, mkRow, List.range_succ, List.filterMap_cons]

/-- C2 counterexample: for the eight-row entity "A" with one case per
day, the first (and only) emitted Growth row is the one for day 7 with
`casos_semana = 7` — not the row's own `new_cases = 1` — and the same
entity truncated to 3 rows (fewer than 7 observations) produces no
Growth output at all, contradicting both halves of the claim. -/
theorem growth_first_row_c2_counterexample :
    (metrica_factor_crec_7d dfOnes).head? =
      some { semana_fin := 7, location := "A", casos_semana := 7,
             factor_crec_7d := 7 } ∧
    (dfOnes.filter (fun r => r.date = 7)).map Row.new_cases = [some 1] ∧
    (7 : ℚ) ≠ 1 ∧
    metrica_factor_crec_7d (dfOnes.take 3) = [] := by
  refine ⟨?_, ?_, by norm_num, ?_⟩
  · simp [metrica_factor_crec_7d, growthAt, rolling7sum, window7, colSeries,
      rank, divNA, prevAt, dfOnes, mkRow, List.range_succ, List.filterMap_cons]
    norm_num
  · simp [dfOnes, mkRow]
  · simp [metrica_factor_crec_7d, growthAt, rolling7sum, window7, colSeries,
      rank, divNA, prevAt, dfOnes, mkRow, List.range_succ, List.filterMap_cons]

/-- C2 (amended): inside the per-entity series the first `casos_semana`
value does equal that row's own `new_cases` (window of size 1), but the
final `dropna` removes every row whose 7-position-shifted denominator is
missing, so an entity with at most 7 rows never reaches the emitted
Growth output. -/
theorem growth_window_c2_amended (df : List Row) (e : String) :
    ((df.filter (fun r => r.location = e)).length ≤ 7 →
      (metrica_factor_crec_7d df).filter (fun o => o.location = e) = []) ∧
    (rolling7sum (colSeries df e Row.new_cases)).get? 0 =
      (colSeries df e Row.new_cases).get? 0 := by
  constructor
  · intro hlen
    rw [List.filter_eq_nil_iff]
    intro o ho
    simp only [decide_eq_true_eq]
    intro heq
    rw [metrica_factor_crec_7d, List.mem_filterMap] at ho
    obtain ⟨i, _, hsome⟩ := ho
    obtain ⟨r, hg, _, hloc, h7, _⟩ := growthAt_eq_some hsome
    have hlt := rank_lt_group hg
    rw [hloc, heq] at hlt h7
    omega
  · exact rolling7sum_head _

/-- C2 witness: the amended theorem applied to the seven-row entity "A". -/
theorem growth_window_c2_witness :
    (metrica_factor_crec_7d dfSeven).filter (fun o => o.location = "A") = [] :=
  (growth_window_c2_amended dfSeven "A").1 (by simp [dfSeven, mkRow])

/-- C3 counterexample: with cases [1,0,0,0,0,0,0,0] the emitted Growth
row for day 7 carries `factor_crec_7d = 0` (current week sum 0, prior
week sum 1), so an emitted growth factor can be zero — it is not
strictly positive. -/
theorem growth_factor_zero_c3_counterexample :
    ({ semana_fin := 7, location := "A", casos_semana := 0,
       factor_crec_7d := 0 } : GrowthRow) ∈ metrica_factor_crec_7d dfAsc ∧
    ¬ (0 : ℚ) > 0 := by
  constructor
  · have h : metrica_factor_crec_7d dfAsc =
        [{ semana_fin := 7, location := "A", casos_semana := 0,
           factor_crec_7d := 0 }] := by
      simp [metrica_factor_crec_7d, growthAt, rolling7sum, window7, colSeries,
        rank, divNA, prevAt, dfAsc, mkRow, List.range_succ, List.filterMap_cons]
    rw [h]
    exact List.mem_singleton_self _
  · norm_num

/-- C3 (amended): every emitted `factor_crec_7d` is an honest finite
quotient `casos_semana / p` with a nonzero denominator `p` — the ±inf
results are replaced by NA and every NA row is dropped, so nothing
infinite or NaN is emitted — but the value itself may be zero or
negative. -/
theorem growth_factor_finite_c3_amended (df : List Row) (o : GrowthRow)
    (ho : o ∈ metrica_factor_crec_7d df) :
    ∃ p, p ≠ 0 ∧ o.factor_crec_7d = o.casos_semana / p := by
  rw [metrica_factor_crec_7d, List.mem_filterMap] at ho
  obtain ⟨i, _, hsome⟩ := ho
  obtain ⟨r, _, _, _, _, p, _, hp0, _, hf⟩ := growthAt_eq_some hsome
  exact ⟨p, hp0, hf⟩

/-- C3 witness: the amended theorem applied to the zero-factor row
emitted from `dfAsc`. -/
theorem growth_factor_finite_c3_witness :
    ∃ p, p ≠ 0 ∧
      ({ semana_fin := 7, location := "A", casos_semana := 0,
         factor_crec_7d := 0 } : GrowthRow).factor_crec_7d =
      ({ semana_fin := 7, location := "A", casos_semana := 0,
         factor_crec_7d := 0 } : GrowthRow).casos_semana / p :=
  growth_factor_finite_c3_amended dfAsc _ (by
    simp [metrica_factor_crec_7d, growthAt, rolling7sum, window7, colSeries,
      rank, divNA, prevAt, dfAsc, mkRow, List.range_succ, List.filterMap_cons])

theorem all_map_general {α β : Type _} (f : α → β) (p : β → Bool) :
    ∀ l : List α, (l.map f).all p = l.all (fun z => p (f z))
  | [] => rfl
  | a :: t => by
    simp only [List.map_cons, List.all_cons, all_map_general f p t]

/-- C4: per entity, `metrica_incidencia_7d` emits nothing until the
entity has 7 chronologically ordered observations — every emitted row
has at least 7 rows of its entity dated no later than it, so no
partial-window value is emitted — and the value emitted at the entity's
7th sorted observation is the arithmetic mean of the first 7 daily
incidences (when those 7 are all defined). -/
theorem incidencia_seven_rows_c4 (df : List Row) :
    (∀ o ∈ metrica_incidencia_7d df,
      7 ≤ ((sortRows df).filter
            (fun x => x.location = o.location ∧ x.date ≤ o.date)).length) ∧
    (∀ (e : String) (r6 : Row),
      7 ≤ ((sortRows df).filter (fun x => x.location = e)).length →
      (((sortRows df).filter (fun x => x.location = e)).take 7).all
          (fun x => (incidenciaDiaria x).isSome) = true →
      ((sortRows df).filter (fun x => x.location = e)).get? 6 = some r6 →
      ({ date := r6.date, location := e,
         incidencia_7d :=
           ((((sortRows df).filter (fun x => x.location = e)).take 7).filterMap
               incidenciaDiaria).sum / 7 } : IncRow) ∈ metrica_incidencia_7d df) := by
  constructor
  · intro o ho
    rw [metrica_incidencia_7d, List.mem_filterMap] at ho
    obtain ⟨i, _, hsome⟩ := ho
    obtain ⟨r, hg, hdate, hloc, hjoin⟩ := incAt_eq_some hsome
    obtain ⟨_, h6, _, _⟩ := rolling7mean_join_some hjoin
    rw [← hloc, ← hdate]
    have hq : ((sortRows df).take i).filter
          (fun x => decide (x.location = r.location ∧ x.date ≤ r.date)) =
        ((sortRows df).take i).filter (fun x => decide (x.location = r.location)) := by
      apply List.filter_congr
      intro x hx
      by_cases hxl : x.location = r.location
      · have hxd := take_loc_date_le (sortRows_sorted df) hg x hx hxl
        simp [hxl, hxd]
      · simp [hxl]
    have htake : (sortRows df).take (i + 1) = (sortRows df).take i ++ [r] := by
      rw [List.take_succ, ← List.get?_eq_getElem?, hg]
      rfl
    have hlen7 : 7 ≤ (((sortRows df).take (i + 1)).filter
        (fun x => decide (x.location = r.location ∧ x.date ≤ r.date))).length := by
      rw [htake, List.filter_append, hq, List.length_append]
      have hone : (List.filter
          (fun x => decide (x.location = r.location ∧ x.date ≤ r.date)) [r]).length = 1 := by
        simp
      rw [hone]
      have h6' : 6 ≤ rank (sortRows df) r.location i := h6
      unfold rank at h6'
      omega
    calc 7 ≤ _ := hlen7
      _ ≤ _ := List.Sublist.length_le
            (List.Sublist.filter _ (List.take_sublist _ _))
  · intro e r6 h7 hall hr6
    have h6lt : 6 < ((sortRows df).filter (fun x => x.location = e)).length := by
      omega
    obtain ⟨i, x, hgi, hpx, hrank, hfg⟩ :=
      filter_idx_exists (fun x => decide (x.location = e)) (sortRows df) 6 h6lt
    have hxr : x = r6 := Option.some.inj (hfg.symm.trans hr6)
    subst hxr
    have hre : x.location = e := by simpa using hpx
    rw [metrica_incidencia_7d, List.mem_filterMap]
    have hiLen : i < (sortRows df).length := (List.get?_eq_some.mp hgi).1
    refine ⟨i, List.mem_range.mpr hiLen, ?_⟩
    have hpre : (((sortRows df).filter (fun y => y.location = e)).map
        incidenciaDiaria).take 7 =
        (((sortRows df).filter (fun y => y.location = e)).take 7).map
          incidenciaDiaria := by
      rw [List.map_take]
    have hv : ((rolling7mean (colSeries (sortRows df) x.location incidenciaDiaria)).get?
        (rank (sortRows df) x.location i)).join =
        some (((((sortRows df).filter (fun y => y.location = e)).take 7).filterMap
            incidenciaDiaria).sum / 7) := by
      rw [hre]
      have hrank' : rank (sortRows df) e i = 6 := by
        unfold rank
        exact hrank
      rw [hrank']
      have hcol : colSeries (sortRows df) e incidenciaDiaria =
          ((sortRows df).filter (fun y => y.location = e)).map incidenciaDiaria := rfl
      rw [hcol]
      have hlen : 7 ≤ (((sortRows df).filter (fun y => y.location = e)).map
          incidenciaDiaria).length := by
        rw [List.length_map]
        exact h7
      have hall' : ((((sortRows df).filter (fun y => y.location = e)).map
          incidenciaDiaria).take 7).all (fun z => z.isSome) = true := by
        rw [hpre, all_map_general]
        exact hall
      rw [rolling7mean_at6 hlen hall']
      rw [hpre, List.filterMap_map]
      rfl
    have hmk := incAt_mk hgi hv
    rw [hre] at hmk
    exact hmk

/-- C4 witness: for the seven-day entity "A" with constant cases 7 and
population 100000, the value emitted at day 6 (the 7th observation) is
the mean 7 of the first seven daily incidences. -/
theorem incidencia_seven_rows_c4_witness :
    ({ date := 6, location := "A", incidencia_7d := 7 } : IncRow) ∈
      metrica_incidencia_7d dfSeven := by
  have h := (incidencia_seven_rows_c4 dfSeven).2 "A" (mkRow "A" 6 7)
    (by simp [sortRows, dfSeven, mkRow, List.insertionSort, List.orderedInsert, rowLE])
    (by simp [sortRows, dfSeven, mkRow, List.insertionSort, List.orderedInsert,
          rowLE, incidenciaDiaria])
    (by simp [sortRows, dfSeven, mkRow, List.insertionSort, List.orderedInsert, rowLE])
  have hval : ((((sortRows dfSeven).filter
        (fun x => x.location = "A")).take 7).filterMap incidenciaDiaria).sum / 7 =
      (7 : ℚ) := by
    simp [sortRows, dfSeven, mkRow, List.insertionSort, List.orderedInsert,
      rowLE, incidenciaDiaria, List.filterMap_cons]
    norm_num
  rw [hval] at h
  exact h

/-- C5: `metrica_incidencia_7d` never divides by a zero population —
line 29 replaces population 0 by NA first, so the row's daily incidence
is undefined, not zero — and any 7-observation window that contains an
undefined daily incidence has fewer than `min_periods = 7` countable
observations, so its rolling mean is NA (nothing is emitted; the
missing value is never treated as 0). -/
theorem incidencia_pop_zero_c5 :
    (∀ r : Row, r.population = some 0 → incidenciaDiaria r = none) ∧
    (∀ (xs : List (Option ℚ)) (k : Nat), 6 ≤ k → k < xs.length →
      none ∈ window7 xs k → (rolling7mean xs).get? k = some none) := by
  constructor
  · intro r hp
    unfold incidenciaDiaria
    rcases hnc : r.new_cases with _ | nc
    · rfl
    · rw [hp]
      simp
  · intro xs k h6 hk hnone
    rw [rolling7mean_get? xs hk, if_pos h6]
    have hfalse : (window7 xs k).all (fun x => x.isSome) = false := by
      rw [List.all_eq_false]
      exact ⟨none, hnone, by simp⟩
    rw [hfalse]
    simp

/-- C5 witness: a concrete zero-population row and a concrete series
with a gap inside the window ending at index 6. -/
theorem incidencia_pop_zero_c5_witness :
    incidenciaDiaria rowPopZero = none ∧
    (rolling7mean xsGap).get? 6 = some none :=
  ⟨incidencia_pop_zero_c5.1 rowPopZero rfl,
   incidencia_pop_zero_c5.2 xsGap 6 (by norm_num) (by simp [xsGap])
     (by simp [window7, xsGap])⟩

theorem alt_head : ∀ p ∈ ALT, p.2.head? = some p.1 := by decide

theorem alt_fst_nodup : (ALT.map Prod.fst).Nodup := by decide

theorem renameEntry_some {cols : List String} {p : String × List String}
    {kv : String × String} (h : renameEntry cols p = some kv) :
    kv.2 = p.1 ∧ kv.1 ∈ cols ∧ kv.1 ≠ p.1 ∧
      (p.2.head? = some p.1 → p.1 ∉ cols) := by
  unfold renameEntry at h
  split at h
  case h_2 => cases h
  case h_1 found hfind =>
    split at h
    case isFalse => cases h
    case isTrue hne =>
      injection h with h
      subst h
      refine ⟨rfl, by simpa using List.find?_some hfind, hne, ?_⟩
      intro hh hcols
      rcases hp2 : p.2 with _ | ⟨a, rest⟩
      · rw [hp2] at hh; cases hh
      · rw [hp2] at hh
        injection hh with hh
        rw [hp2] at hfind
        rw [List.find?_cons_of_pos rest (by rw [hh]; simpa using hcols)] at hfind
        injection hfind with hf
        exact hne (hf.symm.trans hh)

theorem renameMap_key_val {cols : List String} {kv : String × String}
    (h : kv ∈ renameMap cols) : kv.1 ∈ cols ∧ kv.2 ∉ cols := by
  unfold renameMap at h
  rw [List.mem_filterMap] at h
  obtain ⟨p, hp, he⟩ := h
  obtain ⟨h1, h2, _, h4⟩ := renameEntry_some he
  rw [h1]
  exact ⟨h2, h4 (alt_head p hp)⟩

theorem renameMap_val_inj {cols : List String} {kv kv' : String × String}
    (h : kv ∈ renameMap cols) (h' : kv' ∈ renameMap cols)
    (hv : kv.2 = kv'.2) : kv = kv' := by
  unfold renameMap at h h'
  rw [List.mem_filterMap] at h h'
  obtain ⟨p, hp, he⟩ := h
  obtain ⟨q, hq, he'⟩ := h'
  have h1 := (renameEntry_some he).1
  have h2 := (renameEntry_some he').1
  have hpq : p = q :=
    List.inj_on_of_nodup_map alt_fst_nodup hp hq (by rw [← h1, ← h2, hv])
  subst hpq
  rw [he] at he'
  exact Option.some.inj he'

/-- C6 counterexample: headers "Date" and "DATE" differ only in letter
case; after `_canon` both clean to the canonical name "date", so the
returned frame has two columns carrying the same canonical name. -/
theorem canon_duplicate_c6_counterexample :
    (_canon dfCase).2.cols = ["date", "date"] ∧
    ¬ ((_canon dfCase).2.cols).Nodup := by
  constructor
  · decide
  · decide

/-- C6 (amended): provided the headers are pairwise distinct after
cleaning (strip/BOM/lower-case), the frame `_canon` returns has no two
columns with the same name — the alias renaming maps at most one
existing alias per canonical name to a canonical name that is not
already a column — and its row count equals the input's. -/
theorem canon_nodup_c6_amended (df : DF)
    (h : (canonHeaders df.cols).Nodup) :
    ((_canon df).2.cols).Nodup ∧ (_canon df).2.rows.length = df.rows.length := by
  refine ⟨?_, rfl⟩
  show (applyRename (renameMap (canonHeaders df.cols)) (canonHeaders df.cols)).Nodup
  unfold applyRename
  apply List.Nodup.map_on ?_ h
  intro x hx y hy hxy
  rcases hfx : (renameMap (canonHeaders df.cols)).find? (fun q => decide (q.1 = x))
      with _ | qx <;>
    rcases hfy : (renameMap (canonHeaders df.cols)).find? (fun q => decide (q.1 = y))
      with _ | qy <;>
    simp only [hfx, hfy] at hxy
  · exact hxy
  · exfalso
    have hmem := renameMap_key_val (List.mem_of_find?_eq_some hfy)
    rw [hxy] at hx
    exact hmem.2 hx
  · exfalso
    have hmem := renameMap_key_val (List.mem_of_find?_eq_some hfx)
    rw [← hxy] at hy
    exact hmem.2 hy
  · have hq : qx = qy :=
      renameMap_val_inj (List.mem_of_find?_eq_some hfx)
        (List.mem_of_find?_eq_some hfy) hxy
    have h1 : qx.1 = x := by simpa using List.find?_some hfx
    have h2 : qy.1 = y := by simpa using List.find?_some hfy
    rw [← h1, ← h2, hq]

/-- C6 witness: the amended theorem applied to a frame whose headers
clean to the distinct names "date" and "entity". -/
theorem canon_nodup_c6_witness :
    ((_canon dfDirty).2.cols).Nodup ∧
      (_canon dfDirty).2.rows.length = dfDirty.rows.length :=
  canon_nodup_c6_amended dfDirty (by decide)

/-- C7: the claim says `_canon` is a pure transformation leaving the
caller's record set unchanged.  It is not: line 53 assigns the cleaned
headers to the argument frame in place, so after the call the caller's
frame carries "date"/"entity" instead of the original " Date "/BOM
headers (only the alias renaming happens on a fresh frame). -/
theorem canon_mutates_caller_c7 :
    (_canon dfDirty).1 ≠ dfDirty ∧
    (_canon dfDirty).1.cols = ["date", "entity"] ∧
    (_canon dfDirty).1.rows = dfDirty.rows := by
  refine ⟨by decide, by decide, rfl⟩

/-- C8: `datos_procesados` fails with its structural error exactly when
at least one canonical column is absent (the `Except.error` short-cuts
before any row filtering), and the error payload names exactly the
canonical columns that could not be resolved. -/
theorem datos_structural_error_c8 (df : DF) :
    ((∃ missing, datos_procesados df = Except.error missing) ↔
      ∃ c ∈ requiredCols, c ∉ df.cols) ∧
    (∀ missing, datos_procesados df = Except.error missing →
      ∀ c, c ∈ missing ↔ c ∈ requiredCols ∧ c ∉ df.cols) := by
  constructor
  · constructor
    · rintro ⟨missing, hm⟩
      unfold datos_procesados at hm
      rcases hreq : _require df requiredCols with _ | ⟨c0, cs⟩ <;>
        rw [hreq] at hm
      · cases hm
      · have hc0 : c0 ∈ _require df requiredCols := by
          rw [hreq]
          exact List.mem_cons_self _ _
        unfold _require at hc0
        rw [List.mem_filter] at hc0
        exact ⟨c0, hc0.1, by simpa using hc0.2⟩
    · rintro ⟨c, hc, hnc⟩
      unfold datos_procesados
      rcases hreq : _require df requiredCols with _ | ⟨c0, cs⟩
      · exfalso
        unfold _require at hreq
        have := List.filter_eq_nil_iff.mp hreq c hc
        simp at this
        exact hnc this
      · exact ⟨c0 :: cs, rfl⟩
  · intro missing hm c
    unfold datos_procesados at hm
    rcases hreq : _require df requiredCols with _ | ⟨c0, cs⟩ <;>
      rw [hreq] at hm
    · cases hm
    · have hmiss : missing = c0 :: cs := (Except.error.inj hm).symm
      subst hmiss
      rw [← hreq]
      unfold _require
      rw [List.mem_filter]
      simp

/-- C8 witness: a frame missing the `population` column errors with
exactly that column named; the error payload membership matches. -/
theorem datos_structural_error_c8_witness :
    "population" ∈ (["population"] : List String) ↔
      "population" ∈ requiredCols ∧ "population" ∉ dfNoPop.cols :=
  (datos_structural_error_c8 dfNoPop).2 ["population"] (by decide) "population"

/-- C9: when both key columns are present, `unique_loc_date` reports
`passed = false` exactly when two rows share the same (location, date)
key, and passes when there is no duplicate.  (The check carries no
explicit severity; Dagster's default severity for a failed check is
ERROR, i.e. blocking, matching the spec's table.) -/
theorem unique_loc_date_c9 (df : DF)
    (hl : "location" ∈ df.cols) (hd : "date" ∈ df.cols) :
    (unique_loc_date df).passed = false ↔
      ∃ i j, i < j ∧ j < df.rows.length ∧ keyAt df i = keyAt df j := by
  have hmiss : _columns_missing df ["location", "date"] = [] := by
    unfold _columns_missing
    simp [hl, hd]
  unfold unique_loc_date
  rw [hmiss]
  rw [if_neg (by simp)]
  show decide (dupCount df = 0) = false ↔
    ∃ i j, i < j ∧ j < df.rows.length ∧ keyAt df i = keyAt df j
  rw [decide_eq_false_iff_not]
  unfold dupCount
  constructor
  · intro hne
    have hnil : (List.range df.rows.length).filter (fun j => dupAt df j) ≠ [] := by
      intro h0
      exact hne (by rw [h0]; rfl)
    obtain ⟨j, hj⟩ := List.exists_mem_of_ne_nil _ hnil
    rw [List.mem_filter, List.mem_range] at hj
    obtain ⟨hjn, hdup⟩ := hj
    unfold dupAt at hdup
    rw [List.any_eq_true] at hdup
    obtain ⟨i, hi, hk⟩ := hdup
    rw [List.mem_range] at hi
    exact ⟨i, j, hi, hjn, by simpa using hk⟩
  · rintro ⟨i, j, hij, hjn, hk⟩
    have hdup : dupAt df j = true := by
      unfold dupAt
      rw [List.any_eq_true]
      exact ⟨i, List.mem_range.mpr hij, by simpa using hk⟩
    have hmem : j ∈ (List.range df.rows.length).filter (fun j => dupAt df j) := by
      rw [List.mem_filter, List.mem_range]
      exact ⟨hjn, hdup⟩
    intro h0
    rw [List.length_eq_zero] at h0
    rw [h0] at hmem
    cases hmem

/-- C9 witness: the frame with two identical (Peru, d1) keys fails the
check, via the theorem's backward direction. -/
theorem unique_loc_date_c9_witness :
    (unique_loc_date dfDup).passed = false :=
  (unique_loc_date_c9 dfDup (by decide) (by decide)).mpr
    ⟨0, 1, by norm_num, by decide, by decide⟩

/-- C10 counterexample: the France row has non-null `new_cases` and
`people_vaccinated`, yet `datos_procesados` drops it (the `isin(PAISES)`
country filter removes it), so rows are not dropped *only* for null
metric values. -/
theorem datos_drop_c10_counterexample :
    datos_procesados dfFrance =
      Except.ok { cols := requiredCols, rows := [] } ∧
    dfFrance.rows.length = 1 ∧
    (∀ row ∈ dfFrance.rows, dropnaRow dfFrance row = true) := by
  refine ⟨by decide, rfl, by decide⟩

/-- C10 (amended): the null-dropping step consults only `new_cases` and
`people_vaccinated`; beyond it rows are removed only by the
(location, date) deduplication and the configured-country filter.  Any
row that survives those — non-null metrics, configured country, no
earlier surviving row with its key — reaches the processed output even
with a null population, and a null population then yields an undefined
daily incidence in the Incidence metric rather than an error. -/
theorem datos_retention_c10_amended (df : DF) (i : Nat) (r : List Cell)
    (hcols : ∀ c ∈ requiredCols, c ∈ df.cols)
    (hi : df.rows.get? i = some r)
    (hdrop : dropnaRow df r = true)
    (hloc : locInPaises df r = true)
    (hkey : ∀ j s, j < i → df.rows.get? j = some s → dropnaRow df s = true →
      rowKey df s ≠ rowKey df r) :
    (∃ out, datos_procesados df = Except.ok out ∧ projRow df r ∈ out.rows) ∧
    (isNullCell (cellAt df r "population") = true →
      incidenciaDiaria (toRow df r) = none) := by
  constructor
  · have hreq : _require df requiredCols = [] := by
      unfold _require
      rw [List.filter_eq_nil_iff]
      intro c hc
      simpa using hcols c hc
    have hout : datos_procesados df =
        Except.ok
          { cols := requiredCols,
            rows := ((drop_duplicates df (df.rows.filter (dropnaRow df))).filter
                       (locInPaises df)).map (projRow df) } := by
      unfold datos_procesados
      rw [hreq]
    refine ⟨_, hout, ?_⟩
    apply List.mem_map_of_mem
    rw [List.mem_filter]
    refine ⟨?_, hloc⟩
    obtain ⟨hget, htake⟩ := filter_pos (dropnaRow df) df.rows i r hi hdrop
    unfold drop_duplicates
    rw [List.mem_filterMap]
    refine ⟨((df.rows.take i).filter (dropnaRow df)).length, ?_, ?_⟩
    · rw [List.mem_range]
      exact (List.get?_eq_some.mp hget).1
    · simp only [hget, htake]
      rw [if_pos ?_]
      rw [List.all_eq_true]
      intro s hs
      rw [List.mem_filter] at hs
      obtain ⟨j, hj, hgj⟩ := mem_take_idx hs.1
      simpa using hkey j s hj hgj hs.2
  · intro hpop
    have hpn : (toRow df r).population = none := by
      show toRat? (cellAt df r "population") = none
      rcases hcell : cellAt df r "population" with _ | q | s2
      · rfl
      · rw [hcell] at hpop
        simp [isNullCell] at hpop
      · rw [hcell] at hpop
        simp [isNullCell] at hpop
    unfold incidenciaDiaria
    rw [hpn]
    rcases (toRow df r).new_cases with _ | nc <;> rfl

/-- C10 witness: the Peru row with null population is retained by
`datos_procesados` and its daily incidence is undefined. -/
theorem datos_retention_c10_witness :
    (∃ out, datos_procesados dfPeruNull = Except.ok out ∧
       projRow dfPeruNull rowPeruNull ∈ out.rows) ∧
    (isNullCell (cellAt dfPeruNull rowPeruNull "population") = true →
      incidenciaDiaria (toRow dfPeruNull rowPeruNull) = none) :=
  datos_retention_c10_amended dfPeruNull 0 rowPeruNull (by decide) (by decide)
    (by decide) (by decide)
    (fun j s hj _ _ => absurd hj (Nat.not_lt_zero j))
